import Mathlib

/-!
Shallow embedding of the Intel ICD meta-operation layer (`src/icd/intel/cmd_meta.c`)
of the Vulkan-LoaderAndValidationLayers repository, together with theorems checking
the natural-language specification of that file against the code.

Modelling conventions:
* Machine integers (`uint32_t`, `VkDeviceSize`, non-negative `int32_t` values) are
  modelled as `Nat`; the arithmetic performed by this file (or-ing, masking with 3,
  division by small powers of two, additions) cannot overflow 64-bit quantities on
  the inputs the driver accepts, and the 3D offsets used by the claims are
  non-negative.
* External collaborators that live outside `src/` (view construction / surface
  encoding, the relocation machinery, `cmd_fail`, `cmd_draw_meta`,
  `intel_layout_get_slice_tile_offset`, `intel_img_can_enable_hiz`, the icd format
  tables, `u_minify`, `cmd_state_pointer`) are modelled from the spec, as named
  oracle functions collected in `MetaEnv` or as small definitions carrying a
  `Modelled from the spec:` comment.
* The per-generation surface-descriptor bit layouts (GEN6/GEN7 `genhw` headers,
  outside `src/`) are abstracted into the named fields of `SurfaceDesc`
  (width, height, minimum array element, X offset, Y offset), exactly the fields
  the spec's Generation Field Table describes; `GEN_EXTRACT` becomes a field read
  and `GEN_SHIFT32 ... |=` becomes a bitwise or into the field.
-/

/-- Vulkan result codes used by `cmd_meta.c`. -/
inductive VkResult where
  | VK_ERROR_UNKNOWN
  | VK_ERROR_UNAVAILABLE
deriving DecidableEq

/-- The meta-shader library identifiers referenced by `cmd_meta.c`
(`enum intel_dev_meta_shader`). -/
inductive IntelDevMetaShader where
  | VS_FILL_MEM
  | VS_COPY_MEM
  | VS_COPY_MEM_UNALIGNED
  | VS_COPY_R8_TO_MEM
  | VS_COPY_R16_TO_MEM
  | VS_COPY_R32_TO_MEM
  | VS_COPY_R32G32_TO_MEM
  | VS_COPY_R32G32B32A32_TO_MEM
  | FS_COPY_MEM_TO_IMG
  | FS_COPY_1D
  | FS_COPY_1D_ARRAY
  | FS_COPY_2D
  | FS_COPY_2D_ARRAY
  | FS_COPY_2D_MS
  | FS_CLEAR_COLOR
  | FS_CLEAR_DEPTH
  | FS_RESOLVE_2X
  | FS_RESOLVE_4X
  | FS_RESOLVE_8X
  | FS_RESOLVE_16X
deriving DecidableEq

/-- Geometry mode of a meta operation (`INTEL_CMD_META_VS_POINTS` is the zero value
produced by `memset`). -/
inductive IntelCmdMetaMode where
  | VS_POINTS
  | FS_RECT
  | DEPTH_STENCIL_RECT
deriving DecidableEq

/-- Depth/stencil Hi-Z operation (`INTEL_CMD_META_DS_NOP` is the zero value). -/
inductive IntelCmdMetaDsOp where
  | NOP
  | HIZ_CLEAR
  | HIZ_RESOLVE
deriving DecidableEq

/-- Image aspects (`VK_IMAGE_ASPECT_COLOR` is the zero value). -/
inductive VkImageAspect where
  | COLOR
  | DEPTH
  | STENCIL
deriving DecidableEq

/-- Image types. -/
inductive VkImageType where
  | t1D
  | t2D
  | t3D
deriving DecidableEq

/-- Image view types; `v1D` is the zero value left by `memset` when the
`switch` in `cmd_meta_set_src_for_img` falls through its `default` label. -/
inductive VkImageViewType where
  | v1D
  | v2D
  | v1D_ARRAY
  | v2D_ARRAY
  | v3D
deriving DecidableEq

/-- Image layouts distinguished by `cmd_meta_clear_depth_stencil_image`. -/
inductive VkImageLayout where
  | GENERAL
  | COLOR_ATTACHMENT_OPTIMAL
  | DEPTH_STENCIL_ATTACHMENT_OPTIMAL
  | DEPTH_STENCIL_READ_ONLY_OPTIMAL
deriving DecidableEq

/-- Texture filters accepted by `vkCmdBlitImage` (it ignores them). -/
inductive VkTexFilter where
  | NEAREST
  | LINEAR
deriving DecidableEq

/-- Auxiliary surface kind of an image layout; only `HIZ` matters here. -/
inductive IntelLayoutAux where
  | NONE
  | HIZ
  | MCS
deriving DecidableEq

/-- Modelled from the spec: a pixel format together with the properties the icd
format tables (outside `src/`) expose to `cmd_meta.c`: texel byte size
(`icd_format_get_size`), block width (`icd_format_get_block_width`) and whether
the format is block-compressed (`icd_format_is_compressed`).  The `code` field is
an opaque identifier; only equality of codes matters. -/
structure VkFormat where
  code : Nat
  size : Nat
  block_width : Nat
  compressed : Bool
deriving DecidableEq

def VK_FORMAT_UNDEFINED : VkFormat := ⟨0, 0, 1, false⟩
def VK_FORMAT_R8_UINT : VkFormat := ⟨1, 1, 1, false⟩
def VK_FORMAT_R16_UINT : VkFormat := ⟨2, 2, 1, false⟩
def VK_FORMAT_R32_UINT : VkFormat := ⟨3, 4, 1, false⟩
def VK_FORMAT_R32G32_UINT : VkFormat := ⟨4, 8, 1, false⟩
def VK_FORMAT_R32G32B32A32_UINT : VkFormat := ⟨5, 16, 1, false⟩
def VK_FORMAT_R8G8B8A8_UINT : VkFormat := ⟨6, 4, 1, false⟩

/-- Modelled from the spec: `icd_format_get_size` reads the format table. -/
def icd_format_get_size (f : VkFormat) : Nat := f.size

/-- Modelled from the spec: `icd_format_get_block_width` reads the format table. -/
def icd_format_get_block_width (f : VkFormat) : Nat := f.block_width

/-- Modelled from the spec: `icd_format_is_compressed` reads the format table. -/
def icd_format_is_compressed (f : VkFormat) : Bool := f.compressed

structure VkOffset3D where
  x : Nat := 0
  y : Nat := 0
  z : Nat := 0
deriving DecidableEq

structure VkExtent3D where
  width : Nat := 0
  height : Nat := 0
  depth : Nat := 0
deriving DecidableEq

structure VkImageSubresource where
  aspect : VkImageAspect := .COLOR
  mipLevel : Nat := 0
  arraySlice : Nat := 0
deriving DecidableEq

structure VkBufferCopy where
  srcOffset : Nat
  destOffset : Nat
  copySize : Nat
deriving DecidableEq

structure VkImageCopy where
  srcSubresource : VkImageSubresource
  srcOffset : VkOffset3D
  destSubresource : VkImageSubresource
  destOffset : VkOffset3D
  extent : VkExtent3D
deriving DecidableEq

structure VkImageResolve where
  srcSubresource : VkImageSubresource
  srcOffset : VkOffset3D
  destSubresource : VkImageSubresource
  destOffset : VkOffset3D
  extent : VkExtent3D
deriving DecidableEq

structure VkImageSubresourceRange where
  aspect : VkImageAspect
  baseMipLevel : Nat
  mipLevels : Nat
  baseArraySlice : Nat
  arraySize : Nat
deriving DecidableEq

structure VkRect3D where
  offset : VkOffset3D
  extent : VkExtent3D
deriving DecidableEq

/-- The fields of an encoded surface descriptor that `cmd_meta.c` reads or
rewrites.  The per-generation bit packing (GEN6/GEN7 `SURFACE_DW2/DW4/DW5`
offsets and masks) is abstracted into named fields; the hardware stores the
width and height fields as the true value minus one. -/
structure SurfaceDesc where
  width : Nat := 0
  height : Nat := 0
  minArrayElement : Nat := 0
  xOffset : Nat := 0
  yOffset : Nat := 0
deriving DecidableEq

/-- Relocation flag `INTEL_RELOC_WRITE` (opaque bit value). -/
def INTEL_RELOC_WRITE : Nat := 1

/-- Relocation flag `INTEL_CMD_RELOC_TARGET_IS_WRITER` (opaque bit value). -/
def INTEL_CMD_RELOC_TARGET_IS_WRITER : Nat := 2

/-- Writer identifier `INTEL_CMD_WRITER_STATE` (opaque enum value). -/
def INTEL_CMD_WRITER_STATE : Nat := 1

/-- One side (`src` or `dst`) of `struct intel_cmd_meta`: the surface binding
plus the per-unit coordinates. -/
structure IntelCmdMetaBinding where
  valid : Bool := false
  surface : SurfaceDesc := {}
  surface_len : Nat := 0
  reloc_target : Nat := 0
  reloc_offset : Nat := 0
  reloc_flags : Nat := 0
  x : Nat := 0
  y : Nat := 0
  lod : Nat := 0
  layer : Nat := 0
deriving DecidableEq

/-- The `ds` sub-state of `struct intel_cmd_meta`.  The transient depth/stencil
view object is modelled by the (lod, layer) selector it was created from. -/
structure IntelCmdMetaDs where
  view_lod : Nat := 0
  view_layer : Nat := 0
  stencil_ref : Nat := 0
  aspect : VkImageAspect := .COLOR
  op : IntelCmdMetaDsOp := .NOP
  optimal : Bool := false
deriving DecidableEq

/-- Embeds `struct intel_cmd_meta`; field defaults are the zero values produced by
`memset(&meta, 0, sizeof(meta))`. -/
structure IntelCmdMeta where
  mode : IntelCmdMetaMode := .VS_POINTS
  shader_id : IntelDevMetaShader := .VS_FILL_MEM
  width : Nat := 0
  height : Nat := 0
  samples : Nat := 0
  clear_val0 : Nat := 0
  clear_val1 : Nat := 0
  clear_val2 : Nat := 0
  clear_val3 : Nat := 0
  src : IntelCmdMetaBinding := {}
  dst : IntelCmdMetaBinding := {}
  ds : IntelCmdMetaDs := {}
deriving DecidableEq

/-- A zero-initialized `struct intel_cmd_meta`. -/
def metaZero : IntelCmdMeta := {}

/-- Embeds `struct intel_buf`: the fields `cmd_meta.c` reads (byte size and the backing
buffer object used as relocation target). -/
structure IntelBuf where
  size : Nat
  bo : Nat
deriving DecidableEq

/-- Embeds `struct intel_layout`: the layout fields `cmd_meta.c` reads. -/
structure IntelLayout where
  format : VkFormat
  block_width : Nat
  block_height : Nat
  width0 : Nat
  height0 : Nat
  aux : IntelLayoutAux
deriving DecidableEq

/-- Embeds `struct intel_img`: the fields `cmd_meta.c` reads. -/
structure IntelImg where
  type : VkImageType
  samples : Nat
  mip_levels : Nat
  array_size : Nat
  bo : Nat
  layout : IntelLayout
deriving DecidableEq

/-- Embeds `struct intel_att_view`: the attachment view fields the attachment-clear
entry points read (underlying image and the view's mip level). -/
structure IntelAttView where
  img : IntelImg
  mipLevel : Nat
deriving DecidableEq

/-- The aspect bits of a `VkImageAspectFlags` mask tested by
`vkCmdClearDepthStencilAttachment`. -/
structure VkImageAspectFlags where
  depth : Bool
  stencil : Bool
deriving DecidableEq

/-- The observable state of the recording context (`struct intel_cmd`):
its hardware generation, the first error recorded by the error sink, and the
trace of meta draws handed to the dispatcher. -/
structure IntelCmd where
  gen : Nat
  result : Option VkResult := none
  draws : List IntelCmdMeta := []
deriving DecidableEq

/-- Modelled from the spec: the error sink (`cmd_fail`, outside `src/`) records
the first error and marks the context invalid; it is idempotent on repeated
calls (first-error-wins). -/
def cmd_fail (cmd : IntelCmd) (res : VkResult) : IntelCmd :=
  match cmd.result with
  | none => { cmd with result := some res }
  | some _ => cmd

/-- Modelled from the spec: the meta dispatcher (`cmd_draw_meta`, outside
`src/`) appends one draw for the completed descriptor to the command stream. -/
def cmd_draw_meta (cmd : IntelCmd) (meta : IntelCmdMeta) : IntelCmd :=
  { cmd with draws := cmd.draws ++ [meta] }

/-- Modelled from the spec: the external collaborators `cmd_meta.c` consumes.
View construction is modelled as total — the encoders return the encoded
surface words and their length; the view-construction failure path
(`cmd_fail` + `valid = false`) is therefore unreachable in this model.
`tileOffset img layer` models `intel_layout_get_slice_tile_offset(&img->layout,
0, layer, &x_offset, &y_offset)` returning (byte offset, x offset, y offset);
`canEnableHiz` models `intel_img_can_enable_hiz`. -/
structure MetaEnv where
  encodeBufView : Nat → Nat → VkFormat → SurfaceDesc × Nat
  encodeImgView : VkImageViewType → IntelImg → VkFormat → VkImageAspect → SurfaceDesc × Nat
  encodeColorAtt : IntelImg → VkFormat → Nat → Nat → SurfaceDesc × Nat
  tileOffset : IntelImg → Nat → Nat × Nat × Nat
  canEnableHiz : IntelImg → Nat → Bool

/-- Embeds `cmd_meta_create_buf_view`: rounds the byte range up to a whole
format-stride multiple and creates a (transient) buffer view whose encoded
words the caller copies out.  `bufId` is the buffer handle (the backing
buffer object id, or 0 for `VK_NULL_HANDLE`). -/
def cmd_meta_create_buf_view (env : MetaEnv) (bufId : Nat) (range : Nat)
    (format : VkFormat) : SurfaceDesc × Nat :=
  let stride := icd_format_get_size format
  let range := if range % stride ≠ 0 then range + stride - range % stride else range
  env.encodeBufView bufId range format

/-- Embeds `cmd_meta_set_src_for_buf`. -/
def cmd_meta_set_src_for_buf (env : MetaEnv) (buf : IntelBuf) (format : VkFormat)
    (meta : IntelCmdMeta) : IntelCmdMeta :=
  let sl := cmd_meta_create_buf_view env buf.bo buf.size format
  { meta with src := { meta.src with
      valid := true, surface := sl.1, surface_len := sl.2,
      reloc_target := buf.bo, reloc_offset := 0, reloc_flags := 0 } }

/-- Embeds `cmd_meta_set_dst_for_buf`. -/
def cmd_meta_set_dst_for_buf (env : MetaEnv) (buf : IntelBuf) (format : VkFormat)
    (meta : IntelCmdMeta) : IntelCmdMeta :=
  let sl := cmd_meta_create_buf_view env buf.bo buf.size format
  { meta with dst := { meta.dst with
      valid := true, surface := sl.1, surface_len := sl.2,
      reloc_target := buf.bo, reloc_offset := 0, reloc_flags := INTEL_RELOC_WRITE } }

/-- Embeds `cmd_meta_set_src_for_img`: derives the view type from the image's declared
type and array size (the `default` labels leave the zero value `v1D` from
`memset`), creates a transient image view over the full mip/array extent, and
copies its encoded words into the source binding. -/
def cmd_meta_set_src_for_img (env : MetaEnv) (img : IntelImg) (format : VkFormat)
    (aspect : VkImageAspect) (meta : IntelCmdMeta) : IntelCmdMeta :=
  let viewType :=
    if img.array_size = 1 then
      match img.type with
      | .t1D => VkImageViewType.v1D
      | .t2D => VkImageViewType.v2D
      | .t3D => VkImageViewType.v1D
    else
      match img.type with
      | .t1D => VkImageViewType.v1D_ARRAY
      | .t2D => VkImageViewType.v2D_ARRAY
      | .t3D => VkImageViewType.v3D
  let sl := env.encodeImgView viewType img format aspect
  { meta with src := { meta.src with
      valid := true, surface := sl.1, surface_len := sl.2,
      reloc_target := img.bo, reloc_offset := 0, reloc_flags := 0 } }

/-- Embeds `cmd_meta_adjust_compressed_dst`: reads back the just-encoded destination
descriptor's width, height and minimum-array-element fields, converts the
width/height from pixel units to block units (the fields store the true value
minus one), and, when the addressed array layer is non-zero, folds that
layer's tile-aligned offset into the relocation offset and the X/Y offset
fields (or-ed in, matching `GEN_SHIFT32 ... |=`), clearing the
minimum-array-element field.  `tile` is `intel_layout_get_slice_tile_offset`
partially applied to the image's layout.  The GEN6/GEN7 branches of the C code
differ only in field bit positions, which the `SurfaceDesc` field abstraction
collapses, so `gen` is unused here. -/
def cmd_meta_adjust_compressed_dst (_gen : Nat) (img : IntelImg)
    (tile : Nat → Nat × Nat × Nat) (meta : IntelCmdMeta) : IntelCmdMeta :=
  let w := meta.dst.surface.width
  let h := meta.dst.surface.height
  let layer := meta.dst.surface.minArrayElement
  let w := (w + img.layout.block_width) / img.layout.block_width - 1
  let h := (h + img.layout.block_height) / img.layout.block_height - 1
  let meta := { meta with dst := { meta.dst with
      surface := { meta.dst.surface with width := w, height := h } } }
  if layer = 0 then meta
  else
    let off := tile layer
    let x_offset := (off.2.1 / img.layout.block_width) >>> 2
    let y_offset := (off.2.2 / img.layout.block_height) >>> 1
    { meta with dst := { meta.dst with
        reloc_offset := off.1,
        surface := { meta.dst.surface with
          minArrayElement := 0,
          xOffset := meta.dst.surface.xOffset ||| x_offset,
          yOffset := meta.dst.surface.yOffset ||| y_offset } } }

/-- Embeds `cmd_meta_set_dst_for_img`: creates a transient color attachment view for
one (mip, layer) unit, copies its encoded words into the destination binding,
and applies the compressed-layout adjuster when the image's pixel format is
block-compressed. -/
def cmd_meta_set_dst_for_img (env : MetaEnv) (gen : Nat) (img : IntelImg)
    (format : VkFormat) (lod layer : Nat) (meta : IntelCmdMeta) : IntelCmdMeta :=
  let sl := env.encodeColorAtt img format lod layer
  let meta := { meta with dst := { meta.dst with
      valid := true, surface := sl.1, surface_len := sl.2,
      reloc_target := img.bo, reloc_offset := 0, reloc_flags := INTEL_RELOC_WRITE } }
  if icd_format_is_compressed img.layout.format then
    cmd_meta_adjust_compressed_dst gen img (env.tileOffset img) meta
  else meta

/-- Embeds `cmd_meta_set_src_for_writer`: binds a pending command-stream writer range
as the copy source (writer-indirection relocation). -/
def cmd_meta_set_src_for_writer (env : MetaEnv) (writer : Nat) (size : Nat)
    (format : VkFormat) (meta : IntelCmdMeta) : IntelCmdMeta :=
  let sl := cmd_meta_create_buf_view env 0 size format
  { meta with src := { meta.src with
      valid := true, surface := sl.1, surface_len := sl.2,
      reloc_target := writer, reloc_offset := 0,
      reloc_flags := INTEL_CMD_RELOC_TARGET_IS_WRITER } }

/-- Embeds `cmd_meta_set_ds_view`: creates the transient depth/stencil attachment view
for one (mip, layer) unit; the view object is modelled by its selector. -/
def cmd_meta_set_ds_view (_img : IntelImg) (lod layer : Nat)
    (meta : IntelCmdMeta) : IntelCmdMeta :=
  { meta with ds := { meta.ds with view_lod := lod, view_layer := layer } }

/-- Embeds `cmd_meta_set_ds_state`. -/
def cmd_meta_set_ds_state (aspect : VkImageAspect) (stencil_ref : Nat)
    (meta : IntelCmdMeta) : IntelCmdMeta :=
  { meta with ds := { meta.ds with stencil_ref := stencil_ref, aspect := aspect } }

/-- Embeds `get_shader_id`: selects the image-copy shader from the image's type and
sample count and the `copy_array` flag (the `dev` parameter of the C function
is unused).  The `default` label of the `switch` coincides with the 3D case. -/
def get_shader_id (img : IntelImg) (copy_array : Bool) : IntelDevMetaShader :=
  match img.type with
  | .t1D => if copy_array then .FS_COPY_1D_ARRAY else .FS_COPY_1D
  | .t2D =>
    if img.samples > 1 then .FS_COPY_2D_MS
    else if copy_array then .FS_COPY_2D_ARRAY
    else .FS_COPY_2D
  | .t3D => .FS_COPY_2D_ARRAY

/-- Embeds `cmd_meta_mem_dword_aligned` (the `cmd` parameter of the C function is
unused): `!((src_offset | dst_offset | size) & 0x3)`. -/
def cmd_meta_mem_dword_aligned (src_offset dst_offset size : Nat) : Bool :=
  (src_offset ||| dst_offset ||| size) &&& 0x3 == 0

/-- Embeds `cmd_meta_img_raw_format` (the `cmd` parameter of the C function is
unused): maps texel byte-size to an untyped format; unsupported sizes hit an
assertion and yield `VK_FORMAT_UNDEFINED`. -/
def cmd_meta_img_raw_format (format : VkFormat) : VkFormat :=
  match icd_format_get_size format with
  | 1 => VK_FORMAT_R8_UINT
  | 2 => VK_FORMAT_R16_UINT
  | 4 => VK_FORMAT_R32_UINT
  | 8 => VK_FORMAT_R32G32_UINT
  | 16 => VK_FORMAT_R32G32B32A32_UINT
  | _ => VK_FORMAT_UNDEFINED

/-- The three per-region assignments at the top of the `vkCmdCopyBuffer` region
loop: `meta.src.x = srcOffset; meta.dst.x = destOffset; meta.width = copySize`. -/
def copyRegionSetup (meta : IntelCmdMeta) (region : VkBufferCopy) : IntelCmdMeta :=
  { meta with
    src := { meta.src with x := region.srcOffset },
    dst := { meta.dst with x := region.destOffset },
    width := region.copySize }

/-- The region loop of `vkCmdCopyBuffer`.  The loop threads the cached bound
`format` and the descriptor `meta`; draws are collected in order and the first
error raised inside the loop is returned (`cmd_fail` records only the first
error, and no behaviour of the loop reads the recorded error, so collecting
draws and returning the first error is observationally the C control flow). -/
def copyBufferLoop (env : MetaEnv) (gen : Nat) (src dst : IntelBuf) :
    List VkBufferCopy → VkFormat → IntelCmdMeta → List IntelCmdMeta × Option VkResult
  | [], _, _ => ([], none)
  | region :: rest, format, meta =>
    let meta := copyRegionSetup meta region
    if cmd_meta_mem_dword_aligned region.srcOffset region.destOffset region.copySize then
      let meta := { meta with
        shader_id := IntelDevMetaShader.VS_COPY_MEM,
        src := { meta.src with x := meta.src.x / 4 },
        dst := { meta.dst with x := meta.dst.x / 4 },
        width := meta.width / 4 }
      -- INTEL_DEV_META_VS_COPY_MEM is untyped but expects the stride to be 16
      let fmt := VK_FORMAT_R32G32B32A32_UINT
      let meta := if format ≠ fmt then
          cmd_meta_set_dst_for_buf env dst fmt (cmd_meta_set_src_for_buf env src fmt meta)
        else meta
      let rec_result := copyBufferLoop env gen src dst rest fmt meta
      (meta :: rec_result.1, rec_result.2)
    else if gen = 6 then
      -- "unaligned vkCmdCopyBuffer unsupported": fail and continue with the
      -- next region; this region's error is the first recorded
      let rec_result := copyBufferLoop env gen src dst rest format meta
      (rec_result.1, some .VK_ERROR_UNKNOWN)
    else
      let meta := { meta with shader_id := .VS_COPY_MEM_UNALIGNED }
      -- INTEL_DEV_META_VS_COPY_MEM_UNALIGNED is untyped with stride 4
      let fmt := VK_FORMAT_R8G8B8A8_UINT
      let meta := if format ≠ fmt then
          cmd_meta_set_dst_for_buf env dst fmt (cmd_meta_set_src_for_buf env src fmt meta)
        else meta
      let rec_result := copyBufferLoop env gen src dst rest fmt meta
      (meta :: rec_result.1, rec_result.2)

/-- Commits the draws collected by the region loop to the command stream and
hands its first error (if any) to the error sink. -/
def copyBufferFinish (cmd : IntelCmd)
    (res : List IntelCmdMeta × Option VkResult) : IntelCmd :=
  let cmd := { cmd with draws := cmd.draws ++ res.1 }
  match res.2 with
  | none => cmd
  | some r => cmd_fail cmd r

/-- Embeds `vkCmdCopyBuffer`. -/
def vkCmdCopyBuffer (env : MetaEnv) (cmd : IntelCmd) (src dst : IntelBuf)
    (regions : List VkBufferCopy) : IntelCmd :=
  let meta := { metaZero with mode := .VS_POINTS, height := 1, samples := 1 }
  copyBufferFinish cmd
    (copyBufferLoop env cmd.gen src dst regions VK_FORMAT_UNDEFINED meta)

/-- The inner depth loop of a `vkCmdCopyImage` region: one destination binding
and one draw per depth/array layer, incrementing both layers afterwards. -/
def copyImageDepthLoop (env : MetaEnv) (gen : Nat) (dst : IntelImg)
    (format : VkFormat) : Nat → IntelCmdMeta → List IntelCmdMeta × IntelCmdMeta
  | 0, meta => ([], meta)
  | j + 1, meta =>
    let meta := cmd_meta_set_dst_for_img env gen dst format meta.dst.lod meta.dst.layer meta
    let drawn := meta
    let meta := { meta with
      src := { meta.src with layer := meta.src.layer + 1 },
      dst := { meta.dst with layer := meta.dst.layer + 1 } }
    let res := copyImageDepthLoop env gen dst format j meta
    (drawn :: res.1, res.2)

/-- One region of the `vkCmdCopyImage` region loop: choose the shader from the
SOURCE image and the region's depth extent, load the per-region coordinates,
pre-divide by the raw format's block width on the raw path, then run the depth
loop (binding the destination per layer). -/
def copyImageRegionDraws (env : MetaEnv) (gen : Nat) (src dst : IntelImg)
    (raw_copy : Bool) (raw_format : VkFormat) (meta : IntelCmdMeta)
    (region : VkImageCopy) : List IntelCmdMeta × IntelCmdMeta :=
  let meta := { meta with shader_id := get_shader_id src (region.extent.depth > 1) }
  let meta := { meta with
    src := { meta.src with
      lod := region.srcSubresource.mipLevel,
      layer := region.srcSubresource.arraySlice + region.srcOffset.z,
      x := region.srcOffset.x, y := region.srcOffset.y },
    dst := { meta.dst with
      lod := region.destSubresource.mipLevel,
      layer := region.destSubresource.arraySlice + region.destOffset.z,
      x := region.destOffset.x, y := region.destOffset.y },
    width := region.extent.width,
    height := region.extent.height }
  let meta := if raw_copy then
      let block_width := icd_format_get_block_width raw_format
      { meta with
        src := { meta.src with x := meta.src.x / block_width, y := meta.src.y / block_width },
        dst := { meta.dst with x := meta.dst.x / block_width, y := meta.dst.y / block_width },
        width := meta.width / block_width,
        height := meta.height / block_width }
    else meta
  copyImageDepthLoop env gen dst (if raw_copy then raw_format else dst.layout.format)
    region.extent.depth meta

/-- The region loop of `vkCmdCopyImage`. -/
def copyImageRegionsLoop (env : MetaEnv) (gen : Nat) (src dst : IntelImg)
    (raw_copy : Bool) (raw_format : VkFormat) :
    List VkImageCopy → IntelCmdMeta → List IntelCmdMeta × IntelCmdMeta
  | [], meta => ([], meta)
  | region :: rest, meta =>
    let res := copyImageRegionDraws env gen src dst raw_copy raw_format meta region
    let res2 := copyImageRegionsLoop env gen src dst raw_copy raw_format rest res.2
    (res.1 ++ res2.1, res2.2)

/-- The body of `vkCmdCopyImage` after call-level validation: bind the source
once, take the sample count from the destination, and iterate the regions. -/
def vkCmdCopyImageBody (env : MetaEnv) (cmd : IntelCmd) (src dst : IntelImg)
    (regions : List VkImageCopy) (raw_copy : Bool) (raw_format : VkFormat) : IntelCmd :=
  let meta := { metaZero with mode := IntelCmdMetaMode.FS_RECT }
  let meta := cmd_meta_set_src_for_img env src
    (if raw_copy then raw_format else src.layout.format) .COLOR meta
  let meta := { meta with samples := dst.samples }
  let res := copyImageRegionsLoop env cmd.gen src dst raw_copy raw_format regions meta
  { cmd with draws := cmd.draws ++ res.1 }

/-- Embeds `vkCmdCopyImage`: the image types must match; equal formats take the raw
path; differing formats fail when either is block-compressed.  (In the C code
`raw_format` is left uninitialized when `raw_copy` is false and is never read
on that path; the model passes `VK_FORMAT_UNDEFINED` there.) -/
def vkCmdCopyImage (env : MetaEnv) (cmd : IntelCmd) (src dst : IntelImg)
    (regions : List VkImageCopy) : IntelCmd :=
  if src.type ≠ dst.type then cmd_fail cmd .VK_ERROR_UNKNOWN
  else if src.layout.format = dst.layout.format then
    vkCmdCopyImageBody env cmd src dst regions true
      (cmd_meta_img_raw_format src.layout.format)
  else if icd_format_is_compressed src.layout.format ||
          icd_format_is_compressed dst.layout.format then
    cmd_fail cmd .VK_ERROR_UNKNOWN
  else
    vkCmdCopyImageBody env cmd src dst regions false VK_FORMAT_UNDEFINED

/-- Embeds `vkCmdBlitImage`: a documented placeholder that always fails with
`VK_ERROR_UNAVAILABLE`. -/
def vkCmdBlitImage (_env : MetaEnv) (cmd : IntelCmd) (_src _dst : IntelImg)
    (_regions : List VkImageCopy) (_filter : VkTexFilter) : IntelCmd :=
  cmd_fail cmd .VK_ERROR_UNAVAILABLE

/-- Embeds `vkCmdUpdateBuffer`: rejects offsets/sizes that are not 4-byte aligned,
then copies the inline data through the dynamic state writer.
`stateOffset` models the offset returned by `cmd_state_pointer` (outside
`src/`: it allocates a state-writer slot; the `memcpy` of the inline data into
that slot has no observable effect in this model). -/
def vkCmdUpdateBuffer (env : MetaEnv) (cmd : IntelCmd) (dst : IntelBuf)
    (destOffset dataSize : Nat) (stateOffset : Nat) : IntelCmd :=
  if (destOffset ||| dataSize) &&& 3 ≠ 0 then cmd_fail cmd .VK_ERROR_UNKNOWN
  else
    let offset := stateOffset
    let meta := { metaZero with mode := IntelCmdMetaMode.VS_POINTS }
    let meta := { meta with
      shader_id := IntelDevMetaShader.VS_COPY_MEM,
      src := { meta.src with x := offset / 4 },
      dst := { meta.dst with x := destOffset / 4 },
      width := dataSize / 4, height := 1, samples := 1 }
    -- INTEL_DEV_META_VS_COPY_MEM is untyped but expects the stride to be 16
    let format := VK_FORMAT_R32G32B32A32_UINT
    let meta := cmd_meta_set_src_for_writer env INTEL_CMD_WRITER_STATE
      (offset + dataSize) format meta
    let meta := cmd_meta_set_dst_for_buf env dst format meta
    cmd_draw_meta cmd meta

/-- Embeds `vkCmdFillBuffer`: rejects offsets/sizes that are not 4-byte aligned, then
issues one fill draw. -/
def vkCmdFillBuffer (env : MetaEnv) (cmd : IntelCmd) (dst : IntelBuf)
    (destOffset fillSize data : Nat) : IntelCmd :=
  if (destOffset ||| fillSize) &&& 3 ≠ 0 then cmd_fail cmd .VK_ERROR_UNKNOWN
  else
    let meta := { metaZero with mode := IntelCmdMetaMode.VS_POINTS }
    let meta := { meta with
      shader_id := IntelDevMetaShader.VS_FILL_MEM,
      clear_val0 := data,
      dst := { meta.dst with x := destOffset / 4 },
      width := fillSize / 4, height := 1, samples := 1 }
    -- INTEL_DEV_META_VS_FILL_MEM is untyped but expects the stride to be 16
    let format := VK_FORMAT_R32G32B32A32_UINT
    let meta := cmd_meta_set_dst_for_buf env dst format meta
    cmd_draw_meta cmd meta

/-- Modelled from the spec: `u_minify` (outside `src/`) computes a mip level's
extent, never going below one texel. -/
def u_minify (sz lod : Nat) : Nat := max (sz >>> lod) 1

/-- The inner array loop of `cmd_meta_clear_image`: one draw per layer (color
aspect binds a color destination; other aspects set up the depth/stencil view
and state), incrementing the destination layer afterwards. -/
def clearImageLayerLoop (env : MetaEnv) (gen : Nat) (img : IntelImg)
    (format : VkFormat) (aspect : VkImageAspect) :
    Nat → IntelCmdMeta → List IntelCmdMeta × IntelCmdMeta
  | 0, meta => ([], meta)
  | j + 1, meta =>
    let meta :=
      if aspect = VkImageAspect.COLOR then
        cmd_meta_set_dst_for_img env gen img format meta.dst.lod meta.dst.layer meta
      else
        cmd_meta_set_ds_state aspect meta.clear_val1
          (cmd_meta_set_ds_view img meta.dst.lod meta.dst.layer meta)
    let drawn := meta
    let meta := { meta with dst := { meta.dst with layer := meta.dst.layer + 1 } }
    let res := clearImageLayerLoop env gen img format aspect j meta
    (drawn :: res.1, res.2)

/-- The per-mip-level assignments at the top of the `cmd_meta_clear_image`
outer loop: destination lod/layer and the mip level's extent. -/
def clearMipSetup (img : IntelImg) (range : VkImageSubresourceRange) (i : Nat)
    (meta : IntelCmdMeta) : IntelCmdMeta :=
  let meta := { meta with dst := { meta.dst with
    lod := range.baseMipLevel + i, layer := range.baseArraySlice } }
  { meta with
    width := u_minify img.layout.width0 meta.dst.lod,
    height := u_minify img.layout.height0 meta.dst.lod }

/-- The outer mip loop of `cmd_meta_clear_image`: per mip level, reset the
destination layer, compute the mip extent, skip the whole level when a Hi-Z
operation is requested but Hi-Z cannot be enabled there, otherwise run the
layer loop.  `i` is the loop counter, the second `Nat` the remaining count. -/
def clearImageMipLoop (env : MetaEnv) (gen : Nat) (img : IntelImg)
    (format : VkFormat) (range : VkImageSubresourceRange) (array_size : Nat) :
    Nat → Nat → IntelCmdMeta → List IntelCmdMeta × IntelCmdMeta
  | _, 0, meta => ([], meta)
  | i, n + 1, meta =>
    let meta := clearMipSetup img range i meta
    if meta.ds.op ≠ IntelCmdMetaDsOp.NOP ∧ ¬ env.canEnableHiz img meta.dst.lod then
      clearImageMipLoop env gen img format range array_size (i + 1) n meta
    else
      let res := clearImageLayerLoop env gen img format range.aspect array_size meta
      let res2 := clearImageMipLoop env gen img format range array_size (i + 1) n res.2
      (res.1 ++ res2.1, res2.2)

/-- Embeds `cmd_meta_clear_image`: a range whose base mip level or base array slice is
out of the image's extent is a no-op; otherwise the mip and layer counts are
clamped to the image's remaining extent and the loops run.  The descriptor is
threaded back to the caller (the C code mutates it through a pointer). -/
def cmd_meta_clear_image (env : MetaEnv) (cmd : IntelCmd) (img : IntelImg)
    (format : VkFormat) (meta : IntelCmdMeta)
    (range : VkImageSubresourceRange) : IntelCmd × IntelCmdMeta :=
  if range.baseMipLevel ≥ img.mip_levels ∨ range.baseArraySlice ≥ img.array_size then
    (cmd, meta)
  else
    let mip_levels := img.mip_levels - range.baseMipLevel
    let mip_levels := if mip_levels > range.mipLevels then range.mipLevels else mip_levels
    let array_size := img.array_size - range.baseArraySlice
    let array_size := if array_size > range.arraySize then range.arraySize else array_size
    let res := clearImageMipLoop env cmd.gen img format range array_size 0 mip_levels meta
    ({ cmd with draws := cmd.draws ++ res.1 }, res.2)

/-- Embeds `cmd_meta_ds_op`: the 3-state Hi-Z operation, a silent no-op unless the
image has a Hi-Z auxiliary surface and the aspect is depth. -/
def cmd_meta_ds_op (env : MetaEnv) (cmd : IntelCmd) (op : IntelCmdMetaDsOp)
    (img : IntelImg) (range : VkImageSubresourceRange) : IntelCmd :=
  if img.layout.aux ≠ IntelLayoutAux.HIZ then cmd
  else if range.aspect ≠ VkImageAspect.DEPTH then cmd
  else
    let meta := { metaZero with
      mode := IntelCmdMetaMode.DEPTH_STENCIL_RECT,
      samples := img.samples,
      ds := { metaZero.ds with aspect := .DEPTH, op := op, optimal := true } }
    (cmd_meta_clear_image env cmd img img.layout.format meta range).1

/-- Embeds `cmd_meta_clear_color_image` (also the body of `vkCmdClearColorImage`);
the image layout parameter is unused by the C code. -/
def cmd_meta_clear_color_image (env : MetaEnv) (cmd : IntelCmd) (img : IntelImg)
    (_imageLayout : VkImageLayout) (clearColor : Nat × Nat × Nat × Nat)
    (ranges : List VkImageSubresourceRange) : IntelCmd :=
  let meta := { metaZero with
    mode := IntelCmdMetaMode.FS_RECT,
    shader_id := IntelDevMetaShader.FS_CLEAR_COLOR,
    samples := img.samples,
    clear_val0 := clearColor.1,
    clear_val1 := clearColor.2.1,
    clear_val2 := clearColor.2.2.1,
    clear_val3 := clearColor.2.2.2 }
  let format := img.layout.format
  (ranges.foldl (fun acc r => cmd_meta_clear_image env acc.1 img format acc.2 r)
    (cmd, meta)).1

/-- Embeds `cmd_meta_clear_depth_stencil_image` (also the body of
`vkCmdClearDepthStencilImage`).  `depth` carries the 32-bit pattern produced by
`u_fui(depth)`, which is opaque to this layer. -/
def cmd_meta_clear_depth_stencil_image (env : MetaEnv) (cmd : IntelCmd)
    (img : IntelImg) (imageLayout : VkImageLayout) (depth stencil : Nat)
    (ranges : List VkImageSubresourceRange) : IntelCmd :=
  let meta := { metaZero with
    mode := IntelCmdMetaMode.DEPTH_STENCIL_RECT,
    shader_id := IntelDevMetaShader.FS_CLEAR_DEPTH,
    samples := img.samples,
    clear_val0 := depth,
    clear_val1 := stencil }
  let meta :=
    if imageLayout = VkImageLayout.DEPTH_STENCIL_ATTACHMENT_OPTIMAL ∨
       imageLayout = VkImageLayout.DEPTH_STENCIL_READ_ONLY_OPTIMAL then
      { meta with ds := { meta.ds with optimal := true } }
    else meta
  (ranges.foldl (fun acc r => cmd_meta_clear_image env acc.1 img img.layout.format acc.2 r)
    (cmd, meta)).1

/-- The subresource range `vkCmdClearColorAttachment` builds for one rectangle:
a whole-layer clear at the attachment view's mip level. -/
def colorAttachmentRange (view : IntelAttView) (rect : VkRect3D) :
    VkImageSubresourceRange :=
  { aspect := .COLOR, baseMipLevel := view.mipLevel, mipLevels := 1,
    baseArraySlice := rect.offset.z, arraySize := rect.extent.depth }

/-- Embeds `vkCmdClearColorAttachment`: converts each rectangle into a whole-layer
subresource clear of the bound color attachment's image.  `view` is the
attachment view the C code fetches from the bound framebuffer and subpass
(`fb->views[subpass->color_indices[colorAttachment]]`, outside `src/`). -/
def vkCmdClearColorAttachment (env : MetaEnv) (cmd : IntelCmd)
    (view : IntelAttView) (imageLayout : VkImageLayout)
    (clearColor : Nat × Nat × Nat × Nat) (rects : List VkRect3D) : IntelCmd :=
  rects.foldl (fun c rect =>
    cmd_meta_clear_color_image env c view.img imageLayout clearColor
      [colorAttachmentRange view rect]) cmd

/-- The subresource range `vkCmdClearDepthStencilAttachment` builds for one
rectangle: the base mip level is the literal `0` (the C code carries the
commented-out `/* ds->mipLevel, */` in its place), not the view's mip level. -/
def dsAttachmentRange (rect : VkRect3D) : VkImageSubresourceRange :=
  { aspect := .DEPTH, baseMipLevel := 0, mipLevels := 1,
    baseArraySlice := rect.offset.z, arraySize := rect.extent.depth }

/-- Embeds `vkCmdClearDepthStencilAttachment`: converts each rectangle into
whole-layer subresource clears of the bound depth/stencil attachment's image,
one per requested aspect bit.  `view` is `fb->views[subpass->ds_index]`. -/
def vkCmdClearDepthStencilAttachment (env : MetaEnv) (cmd : IntelCmd)
    (view : IntelAttView) (aspectMask : VkImageAspectFlags)
    (imageLayout : VkImageLayout) (depth stencil : Nat)
    (rects : List VkRect3D) : IntelCmd :=
  rects.foldl (fun c rect =>
    let range := dsAttachmentRange rect
    let c :=
      if aspectMask.depth then
        cmd_meta_clear_depth_stencil_image env c view.img imageLayout depth stencil [range]
      else c
    if aspectMask.stencil then
      cmd_meta_clear_depth_stencil_image env c view.img imageLayout depth stencil
        [{ range with aspect := .STENCIL }]
    else c) cmd

/-- The `switch (src->samples)` of `vkCmdResolveImage`; `case 2:` shares the
`default:` label. -/
def resolveShader (samples : Nat) : IntelDevMetaShader :=
  match samples with
  | 4 => .FS_RESOLVE_4X
  | 8 => .FS_RESOLVE_8X
  | 16 => .FS_RESOLVE_16X
  | _ => .FS_RESOLVE_2X

/-- The per-slice loop of a `vkCmdResolveImage` region: all coordinates are
reloaded each iteration, the destination is rebound, and one draw issued.
`arraySlice` is the loop counter, the second `Nat` the remaining count. -/
def resolveSlices (env : MetaEnv) (gen : Nat) (dst : IntelImg)
    (format : VkFormat) (region : VkImageResolve) :
    Nat → Nat → IntelCmdMeta → List IntelCmdMeta × IntelCmdMeta
  | _, 0, meta => ([], meta)
  | arraySlice, n + 1, meta =>
    let meta := { meta with
      src := { meta.src with
        lod := region.srcSubresource.mipLevel,
        layer := region.srcSubresource.arraySlice + arraySlice,
        x := region.srcOffset.x, y := region.srcOffset.y },
      dst := { meta.dst with
        lod := region.destSubresource.mipLevel,
        layer := region.destSubresource.arraySlice + arraySlice,
        x := region.destOffset.x, y := region.destOffset.y },
      width := region.extent.width,
      height := region.extent.height }
    let meta := cmd_meta_set_dst_for_img env gen dst format meta.dst.lod meta.dst.layer meta
    let drawn := meta
    let res := resolveSlices env gen dst format region (arraySlice + 1) n meta
    (drawn :: res.1, res.2)

/-- The region loop of `vkCmdResolveImage`. -/
def resolveRegionsLoop (env : MetaEnv) (gen : Nat) (dst : IntelImg)
    (format : VkFormat) :
    List VkImageResolve → IntelCmdMeta → List IntelCmdMeta × IntelCmdMeta
  | [], meta => ([], meta)
  | region :: rest, meta =>
    let res := resolveSlices env gen dst format region 0 region.extent.depth meta
    let res2 := resolveRegionsLoop env gen dst format rest res.2
    (res.1 ++ res2.1, res2.2)

/-- Embeds `vkCmdResolveImage`: fails whole-call when the source is not multisampled,
the destination is multisampled, or the formats differ; otherwise resolves
through the raw format with a shader chosen by the source sample count. -/
def vkCmdResolveImage (env : MetaEnv) (cmd : IntelCmd) (src dst : IntelImg)
    (regions : List VkImageResolve) : IntelCmd :=
  if src.samples ≤ 1 ∨ dst.samples > 1 ∨ src.layout.format ≠ dst.layout.format then
    cmd_fail cmd .VK_ERROR_UNKNOWN
  else
    let meta := { metaZero with mode := IntelCmdMetaMode.FS_RECT }
    let meta := { meta with shader_id := resolveShader src.samples }
    let meta := { meta with samples := 1 }
    let format := cmd_meta_img_raw_format src.layout.format
    let meta := cmd_meta_set_src_for_img env src format .COLOR meta
    let res := resolveRegionsLoop env cmd.gen dst format regions meta
    { cmd with draws := cmd.draws ++ res.1 }

/-- Shader selection as claim C6 words it: by the DESTINATION image kind, with
the table rows "1D non-array", "1D arrayed", "2D single-sample non-array",
"2D multisample", "2D arrayed", "3D".  "Arrayed" is read generously as either
the destination image being arrayed or the region's depth extent exceeding
one; the counterexample below is chosen so that every reading of the claim
gives the same table entry. -/
def claimShaderByDstKind (dst : IntelImg) (region : VkImageCopy) : IntelDevMetaShader :=
  match dst.type with
  | .t1D =>
    if dst.array_size > 1 ∨ region.extent.depth > 1 then .FS_COPY_1D_ARRAY
    else .FS_COPY_1D
  | .t2D =>
    if dst.samples > 1 then .FS_COPY_2D_MS
    else if dst.array_size > 1 ∨ region.extent.depth > 1 then .FS_COPY_2D_ARRAY
    else .FS_COPY_2D
  | .t3D => .FS_COPY_2D_ARRAY

/-- A concrete environment for evaluating the operations on closed inputs:
the surface encoders return blank descriptors of length 8, the tile-offset
oracle places layer `l` at byte offset `4096 * l` with intra-tile offsets
(64, 32), and Hi-Z can always be enabled. -/
def envTrivial : MetaEnv where
  encodeBufView := fun _ _ _ => ({}, 8)
  encodeImgView := fun _ _ _ _ => ({}, 8)
  encodeColorAtt := fun _ _ _ _ => ({}, 8)
  tileOffset := fun _ l => (4096 * l, 64, 32)
  canEnableHiz := fun _ _ => true

/-- A fresh GEN6 recording context. -/
def cmdGen6 : IntelCmd := { gen := 6 }

/-- A fresh GEN7 recording context. -/
def cmdGen7 : IntelCmd := { gen := 7 }

def bufA : IntelBuf := { size := 64, bo := 1 }

def bufB : IntelBuf := { size := 64, bo := 2 }

/-- A plain 32-bit-per-texel linear layout. -/
def layoutR32 : IntelLayout :=
  { format := VK_FORMAT_R32_UINT, block_width := 1, block_height := 1,
    width0 := 64, height0 := 64, aux := .NONE }

/-- A multisampled 2D source image. -/
def imgSrcMS : IntelImg :=
  { type := .t2D, samples := 4, mip_levels := 1, array_size := 1, bo := 3,
    layout := layoutR32 }

/-- A single-sample, non-arrayed 2D destination image. -/
def imgDstSS : IntelImg :=
  { type := .t2D, samples := 1, mip_levels := 1, array_size := 1, bo := 4,
    layout := layoutR32 }

/-- A 1D image (used to build a type-mismatch input). -/
def img1D : IntelImg :=
  { type := .t1D, samples := 1, mip_levels := 1, array_size := 1, bo := 5,
    layout := layoutR32 }

/-- A block-compressed format (4-wide blocks, 8-byte blocks). -/
def FMT_BC : VkFormat := ⟨100, 8, 4, true⟩

/-- A block-compressed 4x4 layout. -/
def layoutBC : IntelLayout :=
  { format := FMT_BC, block_width := 4, block_height := 4,
    width0 := 128, height0 := 128, aux := .NONE }

/-- A block-compressed, arrayed 2D image. -/
def imgBC : IntelImg :=
  { type := .t2D, samples := 1, mip_levels := 1, array_size := 4, bo := 6,
    layout := layoutBC }

/-- A single-layer copy region (depth 1, no offsets). -/
def regionDepth1 : VkImageCopy :=
  { srcSubresource := {}, srcOffset := {}, destSubresource := {},
    destOffset := {}, extent := { width := 4, height := 4, depth := 1 } }

/-- A single-layer resolve region. -/
def resolveRegion1 : VkImageResolve :=
  { srcSubresource := {}, srcOffset := {}, destSubresource := {},
    destOffset := {}, extent := { width := 4, height := 4, depth := 1 } }

/-- The tile-offset oracle used by the compressed-adjust witness. -/
def tileC4 : Nat → Nat × Nat × Nat := fun l => (4096 * l, 64, 32)

/-- A descriptor whose destination surface encodes a 130x130-pixel region
(width/height fields store the true value minus one) at array layer 2, with
clear X/Y offset fields. -/
def metaC4 : IntelCmdMeta :=
  { metaZero with dst := { metaZero.dst with
      surface := { width := 129, height := 129, minArrayElement := 2,
                   xOffset := 0, yOffset := 0 } } }

/-- An image with four mip levels and eight array layers (clear-image tests). -/
def imgMipped : IntelImg :=
  { type := .t2D, samples := 1, mip_levels := 4, array_size := 8, bo := 7,
    layout := layoutR32 }

/-- A range whose base mip level is out of `imgMipped`'s extent. -/
def rangeOOB : VkImageSubresourceRange :=
  { aspect := .COLOR, baseMipLevel := 4, mipLevels := 1,
    baseArraySlice := 0, arraySize := 1 }

/-- An in-extent range that overflows both the mip and layer counts, so both
get clamped (3 remaining mips, 2 remaining layers). -/
def rangeClamped : VkImageSubresourceRange :=
  { aspect := .COLOR, baseMipLevel := 1, mipLevels := 10,
    baseArraySlice := 6, arraySize := 5 }

/-- A format with a 3-byte texel, which the raw-format mapper rejects. -/
def FMT_SIZE3 : VkFormat := ⟨101, 3, 1, false⟩

theorem cmd_fail_draws (cmd : IntelCmd) (r : VkResult) :
    (cmd_fail cmd r).draws = cmd.draws := by
  unfold cmd_fail
  cases cmd.result <;> rfl

theorem cmd_fail_of_none (cmd : IntelCmd) (r : VkResult) (h : cmd.result = none) :
    cmd_fail cmd r = { cmd with result := some r } := by
  unfold cmd_fail
  rw [h]

theorem cmd_fail_result_of_none (cmd : IntelCmd) (r : VkResult)
    (h : cmd.result = none) : (cmd_fail cmd r).result = some r := by
  rw [cmd_fail_of_none cmd r h]

/-- C5: the raw-format mapper is total on texel byte-sizes {1, 2, 4, 8, 16},
mapping them respectively to the distinct untyped formats `R8_UINT`,
`R16_UINT`, `R32_UINT`, `R32G32_UINT` and `R32G32B32A32_UINT`; any other
texel size is rejected, yielding the undefined format (the assertion-class
failure path). -/
theorem raw_format_table (f : VkFormat) :
    (icd_format_get_size f = 1 → cmd_meta_img_raw_format f = VK_FORMAT_R8_UINT) ∧
    (icd_format_get_size f = 2 → cmd_meta_img_raw_format f = VK_FORMAT_R16_UINT) ∧
    (icd_format_get_size f = 4 → cmd_meta_img_raw_format f = VK_FORMAT_R32_UINT) ∧
    (icd_format_get_size f = 8 → cmd_meta_img_raw_format f = VK_FORMAT_R32G32_UINT) ∧
    (icd_format_get_size f = 16 → cmd_meta_img_raw_format f = VK_FORMAT_R32G32B32A32_UINT) ∧
    (icd_format_get_size f ≠ 1 → icd_format_get_size f ≠ 2 → icd_format_get_size f ≠ 4 →
      icd_format_get_size f ≠ 8 → icd_format_get_size f ≠ 16 →
      cmd_meta_img_raw_format f = VK_FORMAT_UNDEFINED) ∧
    [VK_FORMAT_R8_UINT, VK_FORMAT_R16_UINT, VK_FORMAT_R32_UINT, VK_FORMAT_R32G32_UINT,
      VK_FORMAT_R32G32B32A32_UINT].Pairwise (fun a b => a ≠ b) := by
  refine ⟨?_, ?_, ?_, ?_, ?_, ?_, by decide⟩ <;>
    intro h <;>
    (try intro h2 h4 h8 h16) <;>
    unfold cmd_meta_img_raw_format <;>
    split <;> simp_all [icd_format_get_size]

/-- Witness for C5 at concrete formats: a 4-byte texel maps to `R32_UINT` and
a 3-byte texel is rejected. -/
theorem raw_format_table_witness :
    cmd_meta_img_raw_format VK_FORMAT_R32_UINT = VK_FORMAT_R32_UINT ∧
    cmd_meta_img_raw_format FMT_SIZE3 = VK_FORMAT_UNDEFINED :=
  ⟨(raw_format_table VK_FORMAT_R32_UINT).2.2.1 (by decide),
   (raw_format_table FMT_SIZE3).2.2.2.2.2.1 (by decide) (by decide) (by decide)
     (by decide) (by decide)⟩

/-- C9: `vkCmdBlitImage` fails with the unavailable error condition and
dispatches no draws, for every input; it is never partially implemented. -/
theorem blit_always_unavailable (env : MetaEnv) (cmd : IntelCmd) (src dst : IntelImg)
    (regions : List VkImageCopy) (filter : VkTexFilter) :
    (vkCmdBlitImage env cmd src dst regions filter).draws = cmd.draws ∧
    (cmd.result = none →
      (vkCmdBlitImage env cmd src dst regions filter).result = some .VK_ERROR_UNAVAILABLE) := by
  constructor
  · exact cmd_fail_draws cmd .VK_ERROR_UNAVAILABLE
  · intro h
    unfold vkCmdBlitImage
    rw [cmd_fail_of_none cmd _ h]

/-- Witness for C9 on a concrete call. -/
theorem blit_always_unavailable_witness :
    (vkCmdBlitImage envTrivial cmdGen7 imgSrcMS imgDstSS [] .NEAREST).draws = [] ∧
    (vkCmdBlitImage envTrivial cmdGen7 imgSrcMS imgDstSS [] .NEAREST).result =
      some .VK_ERROR_UNAVAILABLE := by
  have h := blit_always_unavailable envTrivial cmdGen7 imgSrcMS imgDstSS [] .NEAREST
  exact ⟨h.1, h.2 rfl⟩

/-- C10: the depth/stencil attachment clear converts every rectangle to a
subresource-range clear whose base mip level is the constant 0 — independent
of the mip level of the bound depth/stencil attachment view — while the
color-attachment variant uses the view's mip level. -/
theorem ds_attachment_clear_base_mip :
    (∀ rect : VkRect3D, (dsAttachmentRange rect).baseMipLevel = 0) ∧
    (∀ (view : IntelAttView) (rect : VkRect3D),
      (colorAttachmentRange view rect).baseMipLevel = view.mipLevel) ∧
    (∀ (env : MetaEnv) (cmd : IntelCmd) (img : IntelImg) (m₁ m₂ : Nat)
      (mask : VkImageAspectFlags) (layout : VkImageLayout) (depth stencil : Nat)
      (rects : List VkRect3D),
      vkCmdClearDepthStencilAttachment env cmd ⟨img, m₁⟩ mask layout depth stencil rects =
        vkCmdClearDepthStencilAttachment env cmd ⟨img, m₂⟩ mask layout depth stencil rects) :=
  ⟨fun _ => rfl, fun _ _ => rfl, fun _ _ _ _ _ _ _ _ _ _ => rfl⟩

/-- C4: for a block-compressed destination the adjuster rewrites the encoded
width/height fields (stored as true value minus one) from pixel units to
block units as `ceil(pixels / blockSize) - 1`, and, when the addressed array
layer is non-zero, sets the relocation offset to that layer's tile-aligned
byte offset, clears the minimum-array-element field, and writes X/Y offset
fields equal to the tile X offset divided by the block width shifted right by
2 and the tile Y offset divided by the block height shifted right by 1 (the
fields are or-ed into, so equality holds from initially clear fields). -/
theorem compressed_adjust_spec (gen : Nat) (img : IntelImg)
    (tile : Nat → Nat × Nat × Nat) (meta : IntelCmdMeta) (pw ph : Nat)
    (hbw : 0 < img.layout.block_width) (hbh : 0 < img.layout.block_height)
    (hpw : 1 ≤ pw) (hph : 1 ≤ ph)
    (hw : meta.dst.surface.width = pw - 1)
    (hh : meta.dst.surface.height = ph - 1) :
    ((cmd_meta_adjust_compressed_dst gen img tile meta).dst.surface.width =
      (pw + img.layout.block_width - 1) / img.layout.block_width - 1) ∧
    ((cmd_meta_adjust_compressed_dst gen img tile meta).dst.surface.height =
      (ph + img.layout.block_height - 1) / img.layout.block_height - 1) ∧
    (meta.dst.surface.minArrayElement ≠ 0 →
      (cmd_meta_adjust_compressed_dst gen img tile meta).dst.reloc_offset =
        (tile meta.dst.surface.minArrayElement).1 ∧
      (cmd_meta_adjust_compressed_dst gen img tile meta).dst.surface.minArrayElement = 0 ∧
      (meta.dst.surface.xOffset = 0 →
        (cmd_meta_adjust_compressed_dst gen img tile meta).dst.surface.xOffset =
          ((tile meta.dst.surface.minArrayElement).2.1 / img.layout.block_width) >>> 2) ∧
      (meta.dst.surface.yOffset = 0 →
        (cmd_meta_adjust_compressed_dst gen img tile meta).dst.surface.yOffset =
          ((tile meta.dst.surface.minArrayElement).2.2 / img.layout.block_height) >>> 1)) := by
  have hw' : meta.dst.surface.width + img.layout.block_width =
      pw + img.layout.block_width - 1 := by omega
  have hh' : meta.dst.surface.height + img.layout.block_height =
      ph + img.layout.block_height - 1 := by omega
  by_cases hl : meta.dst.surface.minArrayElement = 0
  · refine ⟨?_, ?_, fun hne => absurd hl hne⟩ <;>
      simp [cmd_meta_adjust_compressed_dst, hl, hw', hh']
  · refine ⟨?_, ?_, fun _ => ⟨?_, ?_, fun hx0 => ?_, fun hy0 => ?_⟩⟩
    · simp [cmd_meta_adjust_compressed_dst, hl, hw']
    · simp [cmd_meta_adjust_compressed_dst, hl, hh']
    · simp [cmd_meta_adjust_compressed_dst, hl]
    · simp [cmd_meta_adjust_compressed_dst, hl]
    · simp [cmd_meta_adjust_compressed_dst, hl, hx0, Nat.zero_or]
    · simp [cmd_meta_adjust_compressed_dst, hl, hy0, Nat.zero_or]

/-- Witness for C4: block size 4, a 130x130-pixel destination region at array
layer 2 with the tile oracle `tileC4` — the encoded width becomes
`ceil(130/4) - 1 = 32`, the relocation offset becomes layer 2's tile offset
8192, the minimum-array-element field is cleared, and the X/Y offset fields
become `(64/4) >> 2 = 4` and `(32/4) >> 1 = 4`. -/
theorem compressed_adjust_spec_witness :
    (cmd_meta_adjust_compressed_dst 7 imgBC tileC4 metaC4).dst.surface.width = 32 ∧
    (cmd_meta_adjust_compressed_dst 7 imgBC tileC4 metaC4).dst.reloc_offset = 8192 ∧
    (cmd_meta_adjust_compressed_dst 7 imgBC tileC4 metaC4).dst.surface.minArrayElement = 0 ∧
    (cmd_meta_adjust_compressed_dst 7 imgBC tileC4 metaC4).dst.surface.xOffset = 4 ∧
    (cmd_meta_adjust_compressed_dst 7 imgBC tileC4 metaC4).dst.surface.yOffset = 4 := by
  have h := compressed_adjust_spec 7 imgBC tileC4 metaC4 130 130 (by decide) (by decide)
    (by decide) (by decide) (by decide) (by decide)
  have hne : metaC4.dst.surface.minArrayElement ≠ 0 := by decide
  exact ⟨h.1.trans (by decide), ((h.2.2 hne).1).trans (by decide),
    (h.2.2 hne).2.1, ((h.2.2 hne).2.2.1 (by decide)).trans (by decide),
    ((h.2.2 hne).2.2.2 (by decide)).trans (by decide)⟩

/-- C7: an image-to-image copy whose source and destination types differ, or
whose formats differ while either format is block-compressed, fails
immediately: the resulting state is exactly the input state with the first
error recorded — no region is processed, no binding built, no draw
dispatched. -/
theorem copy_image_call_level_fail (env : MetaEnv) (cmd : IntelCmd)
    (src dst : IntelImg) (regions : List VkImageCopy)
    (h0 : cmd.result = none)
    (h : src.type ≠ dst.type ∨
      (src.layout.format ≠ dst.layout.format ∧
        (icd_format_is_compressed src.layout.format = true ∨
         icd_format_is_compressed dst.layout.format = true))) :
    vkCmdCopyImage env cmd src dst regions =
      { cmd with result := some .VK_ERROR_UNKNOWN } := by
  rcases h with hT | ⟨hF, hC⟩
  · unfold vkCmdCopyImage
    rw [if_pos hT]
    exact cmd_fail_of_none cmd _ h0
  · unfold vkCmdCopyImage
    by_cases hT : src.type ≠ dst.type
    · rw [if_pos hT]
      exact cmd_fail_of_none cmd _ h0
    · rw [if_neg hT, if_neg hF, if_pos (by rcases hC with hc | hc <;> simp [hc])]
      exact cmd_fail_of_none cmd _ h0

/-- Witness for C7: a 1D-to-2D copy fails whole-call with no side effects. -/
theorem copy_image_call_level_fail_witness :
    vkCmdCopyImage envTrivial cmdGen7 img1D imgDstSS [regionDepth1] =
      { cmdGen7 with result := some .VK_ERROR_UNKNOWN } :=
  copy_image_call_level_fail envTrivial cmdGen7 img1D imgDstSS [regionDepth1] rfl
    (Or.inl (by decide))

theorem adjust_compressed_shader_id (gen : Nat) (img : IntelImg)
    (tile : Nat → Nat × Nat × Nat) (meta : IntelCmdMeta) :
    (cmd_meta_adjust_compressed_dst gen img tile meta).shader_id = meta.shader_id := by
  simp only [cmd_meta_adjust_compressed_dst]
  split <;> rfl

theorem set_dst_for_img_shader_id (env : MetaEnv) (gen : Nat) (img : IntelImg)
    (format : VkFormat) (lod layer : Nat) (meta : IntelCmdMeta) :
    (cmd_meta_set_dst_for_img env gen img format lod layer meta).shader_id =
      meta.shader_id := by
  simp only [cmd_meta_set_dst_for_img]
  split
  · rw [adjust_compressed_shader_id]
  · rfl

theorem set_src_for_img_shader_id (env : MetaEnv) (img : IntelImg)
    (format : VkFormat) (aspect : VkImageAspect) (meta : IntelCmdMeta) :
    (cmd_meta_set_src_for_img env img format aspect meta).shader_id =
      meta.shader_id := rfl

theorem resolveSlices_shader_id (env : MetaEnv) (gen : Nat) (dst : IntelImg)
    (format : VkFormat) (region : VkImageResolve) (n : Nat) :
    ∀ (a : Nat) (meta : IntelCmdMeta),
      ((resolveSlices env gen dst format region a n meta).2.shader_id = meta.shader_id) ∧
      (∀ d ∈ (resolveSlices env gen dst format region a n meta).1,
        d.shader_id = meta.shader_id) := by
  induction n with
  | zero =>
    intro a meta
    exact ⟨rfl, by intro d hd; simp [resolveSlices] at hd⟩
  | succ k ih =>
    intro a meta
    simp only [resolveSlices]
    constructor
    · rw [(ih (a + 1) _).1, set_dst_for_img_shader_id]
    · intro d hd
      rcases List.mem_cons.mp hd with hd | hd
      · rw [hd, set_dst_for_img_shader_id]
      · rw [(ih (a + 1) _).2 d hd, set_dst_for_img_shader_id]

theorem resolveRegionsLoop_shader_id (env : MetaEnv) (gen : Nat) (dst : IntelImg)
    (format : VkFormat) (regions : List VkImageResolve) :
    ∀ meta : IntelCmdMeta,
      ((resolveRegionsLoop env gen dst format regions meta).2.shader_id = meta.shader_id) ∧
      (∀ d ∈ (resolveRegionsLoop env gen dst format regions meta).1,
        d.shader_id = meta.shader_id) := by
  induction regions with
  | nil =>
    intro meta
    exact ⟨rfl, by intro d hd; simp [resolveRegionsLoop] at hd⟩
  | cons region rest ih =>
    intro meta
    simp only [resolveRegionsLoop]
    have hs := resolveSlices_shader_id env gen dst format region region.extent.depth 0 meta
    constructor
    · rw [(ih _).1, hs.1]
    · intro d hd
      rcases List.mem_append.mp hd with hd | hd
      · exact hs.2 d hd
      · rw [(ih _).2 d hd, hs.1]

/-- C3: every resolve call with a non-multisampled source, a multisampled
destination, or differing formats fails whole-call — the state is exactly the
input with the first error recorded and no draw dispatched; otherwise the call
proceeds (no error recorded) and every dispatched draw carries the shader
selected by the source sample count, with a distinct shader id for each of
the sample counts 2, 4, 8 and 16. -/
theorem resolve_preconditions (env : MetaEnv) (cmd : IntelCmd) (src dst : IntelImg)
    (regions : List VkImageResolve) :
    (cmd.result = none →
      (src.samples ≤ 1 ∨ dst.samples > 1 ∨ src.layout.format ≠ dst.layout.format) →
      vkCmdResolveImage env cmd src dst regions =
        { cmd with result := some .VK_ERROR_UNKNOWN }) ∧
    (¬(src.samples ≤ 1 ∨ dst.samples > 1 ∨ src.layout.format ≠ dst.layout.format) →
      (vkCmdResolveImage env cmd src dst regions).result = cmd.result ∧
      (∀ d ∈ (vkCmdResolveImage env cmd src dst regions).draws.drop cmd.draws.length,
        d.shader_id = resolveShader src.samples)) ∧
    ([resolveShader 2, resolveShader 4, resolveShader 8,
      resolveShader 16].Pairwise (fun a b => a ≠ b)) := by
  refine ⟨?_, ?_, by decide⟩
  · intro h0 h
    unfold vkCmdResolveImage
    rw [if_pos h]
    exact cmd_fail_of_none cmd _ h0
  · intro h
    unfold vkCmdResolveImage
    rw [if_neg h]
    constructor
    · rfl
    · intro d hd
      simp only [List.drop_left] at hd
      have := (resolveRegionsLoop_shader_id env cmd.gen dst
        (cmd_meta_img_raw_format src.layout.format) regions _).2 d hd
      rw [this, set_src_for_img_shader_id]

/-- Witness for C3: a 4x-multisampled source resolving into a single-sample
destination proceeds with the 4x resolve shader on every draw, and the failing
precondition branch is exercised by resolving from a single-sample source. -/
theorem resolve_preconditions_witness :
    ((vkCmdResolveImage envTrivial cmdGen7 imgSrcMS imgDstSS [resolveRegion1]).result = none ∧
      (∀ d ∈ (vkCmdResolveImage envTrivial cmdGen7 imgSrcMS imgDstSS
          [resolveRegion1]).draws.drop 0,
        d.shader_id = resolveShader 4)) ∧
    vkCmdResolveImage envTrivial cmdGen7 imgDstSS imgDstSS [resolveRegion1] =
      { cmdGen7 with result := some .VK_ERROR_UNKNOWN } := by
  have h1 := (resolve_preconditions envTrivial cmdGen7 imgSrcMS imgDstSS
    [resolveRegion1]).2.1 (by decide)
  have h2 := (resolve_preconditions envTrivial cmdGen7 imgDstSS imgDstSS
    [resolveRegion1]).1 rfl (by decide)
  exact ⟨⟨h1.1, h1.2⟩, h2⟩

theorem copyRegionSetup_setup (meta : IntelCmdMeta) (r r2 : VkBufferCopy) :
    copyRegionSetup (copyRegionSetup meta r) r2 = copyRegionSetup meta r2 := rfl

theorem copyBufferLoop_setup (env : MetaEnv) (gen : Nat) (src dst : IntelBuf)
    (regs : List VkBufferCopy) (fmt : VkFormat) (meta : IntelCmdMeta)
    (r : VkBufferCopy) :
    copyBufferLoop env gen src dst regs fmt (copyRegionSetup meta r) =
      copyBufferLoop env gen src dst regs fmt meta := by
  cases regs with
  | nil => rfl
  | cons a rest => simp only [copyBufferLoop, copyRegionSetup_setup]

theorem copyBufferLoop_aligned_no_error (env : MetaEnv) (gen : Nat)
    (src dst : IntelBuf) :
    ∀ (regs : List VkBufferCopy) (fmt : VkFormat) (meta : IntelCmdMeta),
      (∀ r ∈ regs,
        cmd_meta_mem_dword_aligned r.srcOffset r.destOffset r.copySize = true) →
      (copyBufferLoop env gen src dst regs fmt meta).2 = none := by
  intro regs
  induction regs with
  | nil => intro fmt meta _; rfl
  | cons a rest ih =>
    intro fmt meta h
    simp only [copyBufferLoop]
    split
    all_goals first
      | exact ih _ _ (fun r hr => h r (List.mem_cons_of_mem a hr))
      | exact absurd (h a (List.mem_cons_self a rest)) (by assumption)

theorem copyBufferLoop_skip_failed (env : MetaEnv) (src dst : IntelBuf)
    (rk : VkBufferCopy)
    (hk : cmd_meta_mem_dword_aligned rk.srcOffset rk.destOffset rk.copySize = false)
    (post : List VkBufferCopy) :
    ∀ (pre : List VkBufferCopy) (fmt : VkFormat) (meta : IntelCmdMeta),
      copyBufferLoop env 6 src dst (pre ++ rk :: post) fmt meta =
        ((copyBufferLoop env 6 src dst (pre ++ post) fmt meta).1,
          some .VK_ERROR_UNKNOWN) := by
  intro pre
  induction pre with
  | nil =>
    intro fmt meta
    simp only [List.nil_append, copyBufferLoop]
    rw [if_neg (by simp [hk]), if_pos trivial, copyBufferLoop_setup]
  | cons a rest ih =>
    intro fmt meta
    by_cases hal : cmd_meta_mem_dword_aligned a.srcOffset a.destOffset a.copySize = true
    · simp only [List.cons_append, copyBufferLoop, hal, ite_true, if_true,
        List.append_eq]
      rw [ih]
    · simp only [List.cons_append, copyBufferLoop, hal, ite_false, if_false,
        Bool.false_eq_true, if_true, List.append_eq]
      rw [ih]

theorem copyBufferFinish_draws (c : IntelCmd)
    (res : List IntelCmdMeta × Option VkResult) :
    (copyBufferFinish c res).draws = c.draws ++ res.1 := by
  rcases res with ⟨l, o⟩
  cases o with
  | none => rfl
  | some r => exact cmd_fail_draws _ r

theorem copyBufferFinish_pair_some (c : IntelCmd) (l : List IntelCmdMeta)
    (r : VkResult) :
    copyBufferFinish c (l, some r) = cmd_fail { c with draws := c.draws ++ l } r := rfl

/-- C2: on the generation lacking the unaligned fallback, a buffer-copy call
whose region k is unaligned reports the failure to the error sink but still
processes and dispatches the remaining regions exactly as the call without
region k (the dispatch trace equals the non-failing baseline), and the context
carries the error raised at region k. -/
theorem best_effort_region_iteration (env : MetaEnv) (cmd : IntelCmd)
    (src dst : IntelBuf) (pre post : List VkBufferCopy) (rk : VkBufferCopy)
    (hgen : cmd.gen = 6) (h0 : cmd.result = none)
    (hpre : ∀ r ∈ pre,
      cmd_meta_mem_dword_aligned r.srcOffset r.destOffset r.copySize = true)
    (hpost : ∀ r ∈ post,
      cmd_meta_mem_dword_aligned r.srcOffset r.destOffset r.copySize = true)
    (hk : cmd_meta_mem_dword_aligned rk.srcOffset rk.destOffset rk.copySize = false) :
    (vkCmdCopyBuffer env cmd src dst (pre ++ rk :: post)).draws =
      (vkCmdCopyBuffer env cmd src dst (pre ++ post)).draws ∧
    (vkCmdCopyBuffer env cmd src dst (pre ++ rk :: post)).result =
      some .VK_ERROR_UNKNOWN := by
  simp only [vkCmdCopyBuffer, hgen]
  rw [copyBufferLoop_skip_failed env src dst rk hk post pre]
  constructor
  · rw [copyBufferFinish_draws, copyBufferFinish_draws]
  · rw [copyBufferFinish_pair_some]
    exact cmd_fail_result_of_none _ _ h0

/-- Witness for C2: three regions on GEN6 with the middle one unaligned — the
dispatch trace equals that of the two-region baseline and the error is the
one raised at the failing region. -/
theorem best_effort_region_iteration_witness :
    (vkCmdCopyBuffer envTrivial cmdGen6 bufA bufB
        [⟨0, 0, 4⟩, ⟨1, 0, 4⟩, ⟨4, 4, 8⟩]).draws =
      (vkCmdCopyBuffer envTrivial cmdGen6 bufA bufB [⟨0, 0, 4⟩, ⟨4, 4, 8⟩]).draws ∧
    (vkCmdCopyBuffer envTrivial cmdGen6 bufA bufB
        [⟨0, 0, 4⟩, ⟨1, 0, 4⟩, ⟨4, 4, 8⟩]).result = some .VK_ERROR_UNKNOWN :=
  best_effort_region_iteration envTrivial cmdGen6 bufA bufB
    [⟨0, 0, 4⟩] [⟨4, 4, 8⟩] ⟨1, 0, 4⟩ rfl rfl (by decide) (by decide) (by decide)

/-- C1 (amended): fill and update fail with the Unaligned error and issue no
draw exactly when `(offset | size) & 3 != 0`, succeeding with one draw
otherwise; an unaligned buffer-copy region fails (error, no draw) only on
generation 6, which lacks the byte-granular fallback shader — on any other
generation it is processed and drawn with the unaligned-copy shader — and
dword-aligned copies always succeed. -/
theorem alignment_boundary (env : MetaEnv) (cmd : IntelCmd) (src dst : IntelBuf)
    (o n st data : Nat) (r : VkBufferCopy) (h0 : cmd.result = none) :
    ((o ||| n) &&& 3 ≠ 0 →
      vkCmdUpdateBuffer env cmd dst o n st =
        { cmd with result := some .VK_ERROR_UNKNOWN } ∧
      vkCmdFillBuffer env cmd dst o n data =
        { cmd with result := some .VK_ERROR_UNKNOWN }) ∧
    ((o ||| n) &&& 3 = 0 →
      ((vkCmdUpdateBuffer env cmd dst o n st).result = none ∧
        (vkCmdUpdateBuffer env cmd dst o n st).draws.length = cmd.draws.length + 1) ∧
      ((vkCmdFillBuffer env cmd dst o n data).result = none ∧
        (vkCmdFillBuffer env cmd dst o n data).draws.length = cmd.draws.length + 1)) ∧
    (cmd_meta_mem_dword_aligned r.srcOffset r.destOffset r.copySize = true →
      (vkCmdCopyBuffer env cmd src dst [r]).result = none ∧
      (vkCmdCopyBuffer env cmd src dst [r]).draws.length = cmd.draws.length + 1) ∧
    (cmd_meta_mem_dword_aligned r.srcOffset r.destOffset r.copySize = false →
      (cmd.gen = 6 →
        (vkCmdCopyBuffer env cmd src dst [r]).result = some .VK_ERROR_UNKNOWN ∧
        (vkCmdCopyBuffer env cmd src dst [r]).draws = cmd.draws) ∧
      (cmd.gen ≠ 6 →
        (vkCmdCopyBuffer env cmd src dst [r]).result = none ∧
        (vkCmdCopyBuffer env cmd src dst [r]).draws.length = cmd.draws.length + 1)) := by
  refine ⟨?_, ?_, ?_, ?_⟩
  · intro h
    constructor
    · unfold vkCmdUpdateBuffer
      rw [if_pos h]
      exact cmd_fail_of_none cmd _ h0
    · unfold vkCmdFillBuffer
      rw [if_pos h]
      exact cmd_fail_of_none cmd _ h0
  · intro h
    refine ⟨⟨?_, ?_⟩, ?_, ?_⟩ <;>
      · first
          | (unfold vkCmdUpdateBuffer; rw [if_neg (by simp [h])])
          | (unfold vkCmdFillBuffer; rw [if_neg (by simp [h])])
        simp [cmd_draw_meta, h0]
  · intro hal
    unfold vkCmdCopyBuffer
    simp only [copyBufferLoop, hal, ite_true, if_true]
    constructor
    · simp [copyBufferFinish, h0]
    · simp [copyBufferFinish_draws]
  · intro hal
    constructor
    · intro hg
      unfold vkCmdCopyBuffer
      rw [hg]
      simp only [copyBufferLoop, hal, ite_false, if_false, Bool.false_eq_true, if_true]
      constructor
      · rw [copyBufferFinish_pair_some]
        exact cmd_fail_result_of_none _ _ h0
      · rw [copyBufferFinish_pair_some, cmd_fail_draws]
        simp
    · intro hg
      unfold vkCmdCopyBuffer
      simp only [copyBufferLoop, hal, ite_false, if_false, Bool.false_eq_true, hg,
        ite_true]
      constructor
      · simp [copyBufferFinish, h0]
      · simp [copyBufferFinish_draws]

/-- Counterexample for C1 as stated: on generation 7 a buffer-copy region with
unaligned source offset 1 (so `(srcOffset | dstOffset | size) & 3 != 0`) does
NOT fail — no error is recorded and the region is dispatched. -/
theorem alignment_boundary_counterexample :
    ((1 ||| 0 ||| 4) &&& 3 ≠ 0) ∧
    (vkCmdCopyBuffer envTrivial cmdGen7 bufA bufB [⟨1, 0, 4⟩]).result = none ∧
    (vkCmdCopyBuffer envTrivial cmdGen7 bufA bufB [⟨1, 0, 4⟩]).draws.length = 1 := by
  decide

/-- Witness for C1 (amended) at concrete inputs: an unaligned update fails, an
aligned fill succeeds with one draw, an unaligned copy fails on GEN6 with no
draw, and an unaligned copy succeeds on GEN7 with one draw. -/
theorem alignment_boundary_witness :
    (vkCmdUpdateBuffer envTrivial cmdGen7 bufA 1 4 0 =
      { cmdGen7 with result := some .VK_ERROR_UNKNOWN }) ∧
    ((vkCmdFillBuffer envTrivial cmdGen7 bufA 0 8 5).result = none ∧
      (vkCmdFillBuffer envTrivial cmdGen7 bufA 0 8 5).draws.length = 1) ∧
    ((vkCmdCopyBuffer envTrivial cmdGen6 bufA bufB [⟨1, 0, 4⟩]).result =
        some .VK_ERROR_UNKNOWN ∧
      (vkCmdCopyBuffer envTrivial cmdGen6 bufA bufB [⟨1, 0, 4⟩]).draws = []) ∧
    ((vkCmdCopyBuffer envTrivial cmdGen7 bufA bufB [⟨1, 0, 4⟩]).result = none ∧
      (vkCmdCopyBuffer envTrivial cmdGen7 bufA bufB [⟨1, 0, 4⟩]).draws.length = 1) := by
  have hu := (alignment_boundary envTrivial cmdGen7 bufA bufA 1 4 0 5 ⟨1, 0, 4⟩ rfl).1
    (by decide)
  have hf := (alignment_boundary envTrivial cmdGen7 bufA bufA 0 8 0 5 ⟨1, 0, 4⟩ rfl).2.1
    (by decide)
  have h6 := ((alignment_boundary envTrivial cmdGen6 bufA bufB 0 8 0 5 ⟨1, 0, 4⟩
    rfl).2.2.2 (by decide)).1 rfl
  have h7 := ((alignment_boundary envTrivial cmdGen7 bufA bufB 0 8 0 5 ⟨1, 0, 4⟩
    rfl).2.2.2 (by decide)).2 (by decide)
  exact ⟨hu.1, ⟨hf.2.1, hf.2.2⟩, ⟨h6.1, h6.2⟩, ⟨h7.1, h7.2⟩⟩

theorem copyImageDepthLoop_shader_id (env : MetaEnv) (gen : Nat) (dst : IntelImg)
    (format : VkFormat) (n : Nat) :
    ∀ meta : IntelCmdMeta,
      ((copyImageDepthLoop env gen dst format n meta).2.shader_id = meta.shader_id) ∧
      (∀ d ∈ (copyImageDepthLoop env gen dst format n meta).1,
        d.shader_id = meta.shader_id) := by
  induction n with
  | zero =>
    intro meta
    exact ⟨rfl, by intro d hd; simp [copyImageDepthLoop] at hd⟩
  | succ k ih =>
    intro meta
    simp only [copyImageDepthLoop]
    constructor
    · rw [(ih _).1, set_dst_for_img_shader_id]
    · intro d hd
      rcases List.mem_cons.mp hd with hd | hd
      · rw [hd, set_dst_for_img_shader_id]
      · rw [(ih _).2 d hd, set_dst_for_img_shader_id]

/-- C6 (amended): the copy shader for an image-copy region is selected from the
SOURCE image's type and sample count (the source and destination types are
already validated equal), with "arrayed" meaning the region's depth extent
exceeds one, and with 2D multisample taking precedence over arrayed:
1D, depth <= 1 -> copy-1D; 1D, depth > 1 -> copy-1D-array;
2D multisampled source -> copy-2D-multisample; 2D single-sample, depth > 1 ->
copy-2D-array; 2D single-sample, depth <= 1 -> copy-2D; 3D -> copy-2D-array.
Every draw dispatched for the region carries that shader. -/
theorem copy_image_shader_selection (env : MetaEnv) (gen : Nat)
    (src dst : IntelImg) (raw_copy : Bool) (raw_format : VkFormat)
    (meta : IntelCmdMeta) (region : VkImageCopy) :
    ∀ d ∈ (copyImageRegionDraws env gen src dst raw_copy raw_format meta region).1,
      d.shader_id =
        (match src.type with
          | .t1D =>
            if region.extent.depth > 1 then IntelDevMetaShader.FS_COPY_1D_ARRAY
            else IntelDevMetaShader.FS_COPY_1D
          | .t2D =>
            if src.samples > 1 then IntelDevMetaShader.FS_COPY_2D_MS
            else if region.extent.depth > 1 then IntelDevMetaShader.FS_COPY_2D_ARRAY
            else IntelDevMetaShader.FS_COPY_2D
          | .t3D => IntelDevMetaShader.FS_COPY_2D_ARRAY) := by
  intro d hd
  simp only [copyImageRegionDraws] at hd
  have h := (copyImageDepthLoop_shader_id env gen dst
    (if raw_copy then raw_format else dst.layout.format) region.extent.depth _).2 d hd
  rw [h]
  cases raw_copy <;>
  · refine Eq.trans (?_ : _ = get_shader_id src (decide (region.extent.depth > 1))) ?_
    · rfl
    · unfold get_shader_id
      cases src.type
      · by_cases hdep : region.extent.depth > 1 <;> simp [hdep]
      · by_cases hdep : region.extent.depth > 1 <;>
          by_cases hms : src.samples > 1 <;> simp [hdep, hms]
      · rfl

/-- Witness for C6 (amended): the single draw of a depth-1 region copied from
a 4x-multisampled 2D source carries the 2D-multisample copy shader. -/
theorem copy_image_shader_selection_witness :
    ((copyImageRegionDraws envTrivial 7 imgSrcMS imgDstSS true VK_FORMAT_R32_UINT
        metaZero regionDepth1).1.getD 0 metaZero).shader_id =
      IntelDevMetaShader.FS_COPY_2D_MS := by
  have h := copy_image_shader_selection envTrivial 7 imgSrcMS imgDstSS true
    VK_FORMAT_R32_UINT metaZero regionDepth1
    ((copyImageRegionDraws envTrivial 7 imgSrcMS imgDstSS true VK_FORMAT_R32_UINT
        metaZero regionDepth1).1.getD 0 metaZero) (by decide)
  exact h.trans (by decide)

/-- Counterexample for C6 as stated: copying between 2D images whose SOURCE is
4x-multisampled and whose DESTINATION is single-sample and non-arrayed, with a
depth-1 region, the code dispatches the 2D-multisample copy shader, while the
claim's destination-kind table selects the plain 2D copy shader. -/
theorem copy_image_shader_selection_counterexample :
    ((vkCmdCopyImage envTrivial cmdGen7 imgSrcMS imgDstSS [regionDepth1]).draws.map
        (fun d => d.shader_id) = [IntelDevMetaShader.FS_COPY_2D_MS]) ∧
    claimShaderByDstKind imgDstSS regionDepth1 = IntelDevMetaShader.FS_COPY_2D ∧
    IntelDevMetaShader.FS_COPY_2D_MS ≠ IntelDevMetaShader.FS_COPY_2D := by
  decide

theorem adjust_compressed_ds (gen : Nat) (img : IntelImg)
    (tile : Nat → Nat × Nat × Nat) (meta : IntelCmdMeta) :
    (cmd_meta_adjust_compressed_dst gen img tile meta).ds = meta.ds := by
  simp only [cmd_meta_adjust_compressed_dst]
  split <;> rfl

theorem set_dst_for_img_ds (env : MetaEnv) (gen : Nat) (img : IntelImg)
    (format : VkFormat) (lod layer : Nat) (meta : IntelCmdMeta) :
    (cmd_meta_set_dst_for_img env gen img format lod layer meta).ds = meta.ds := by
  simp only [cmd_meta_set_dst_for_img]
  split
  · rw [adjust_compressed_ds]
  · rfl

theorem clearImageLayerLoop_spec (env : MetaEnv) (gen : Nat) (img : IntelImg)
    (format : VkFormat) (aspect : VkImageAspect) (n : Nat) :
    ∀ meta : IntelCmdMeta,
      ((clearImageLayerLoop env gen img format aspect n meta).1.length = n) ∧
      ((clearImageLayerLoop env gen img format aspect n meta).2.ds.op = meta.ds.op) := by
  induction n with
  | zero => intro meta; exact ⟨rfl, rfl⟩
  | succ k ih =>
    intro meta
    simp only [clearImageLayerLoop]
    constructor
    · simp only [List.length_cons, (ih _).1]
    · rw [(ih _).2]
      split
      · rw [set_dst_for_img_ds]
      · rfl

theorem clearImageMipLoop_spec (env : MetaEnv) (gen : Nat) (img : IntelImg)
    (format : VkFormat) (range : VkImageSubresourceRange) (asize : Nat) (n : Nat) :
    ∀ (i : Nat) (meta : IntelCmdMeta), meta.ds.op = IntelCmdMetaDsOp.NOP →
      ((clearImageMipLoop env gen img format range asize i n meta).1.length =
        n * asize) ∧
      ((clearImageMipLoop env gen img format range asize i n meta).2.ds.op =
        IntelCmdMetaDsOp.NOP) := by
  induction n with
  | zero => intro i meta h; exact ⟨by simp [clearImageMipLoop], h⟩
  | succ k ih =>
    intro i meta h
    have hsetup : (clearMipSetup img range i meta).ds.op = IntelCmdMetaDsOp.NOP := h
    simp only [clearImageMipLoop]
    rw [if_neg (fun hc => hc.1 hsetup)]
    have hl := clearImageLayerLoop_spec env gen img format range.aspect asize
      (clearMipSetup img range i meta)
    have hm := ih (i + 1) _ (hl.2.trans hsetup)
    constructor
    · rw [List.length_append, hl.1, hm.1, Nat.succ_mul, Nat.add_comm]
    · exact hm.2

/-- C8: clearing a range whose base mip level or base array slice is outside
the image's extent is a no-op — zero draws issued and no error recorded (the
state is returned unchanged); otherwise the mip and layer counts are clamped
to the image's remaining extent before iterating, and (absent a Hi-Z op)
exactly clamped-mips times clamped-layers draws are issued, with no error. -/
theorem clear_image_range_clamp (env : MetaEnv) (cmd : IntelCmd) (img : IntelImg)
    (format : VkFormat) (meta : IntelCmdMeta) (range : VkImageSubresourceRange) :
    ((range.baseMipLevel ≥ img.mip_levels ∨ range.baseArraySlice ≥ img.array_size) →
      cmd_meta_clear_image env cmd img format meta range = (cmd, meta)) ∧
    (range.baseMipLevel < img.mip_levels → range.baseArraySlice < img.array_size →
      meta.ds.op = IntelCmdMetaDsOp.NOP →
      ((cmd_meta_clear_image env cmd img format meta range).1.draws.length =
        cmd.draws.length +
          min range.mipLevels (img.mip_levels - range.baseMipLevel) *
            min range.arraySize (img.array_size - range.baseArraySlice)) ∧
      ((cmd_meta_clear_image env cmd img format meta range).1.result = cmd.result)) := by
  constructor
  · intro h
    unfold cmd_meta_clear_image
    rw [if_pos h]
  · intro h1 h2 hop
    unfold cmd_meta_clear_image
    rw [if_neg (by omega)]
    have e1 : (if img.mip_levels - range.baseMipLevel > range.mipLevels then
        range.mipLevels else img.mip_levels - range.baseMipLevel) =
        min range.mipLevels (img.mip_levels - range.baseMipLevel) := by
      split <;> omega
    have e2 : (if img.array_size - range.baseArraySlice > range.arraySize then
        range.arraySize else img.array_size - range.baseArraySlice) =
        min range.arraySize (img.array_size - range.baseArraySlice) := by
      split <;> omega
    have hm := clearImageMipLoop_spec env cmd.gen img format range
      (if img.array_size - range.baseArraySlice > range.arraySize then
        range.arraySize else img.array_size - range.baseArraySlice)
      (if img.mip_levels - range.baseMipLevel > range.mipLevels then
        range.mipLevels else img.mip_levels - range.baseMipLevel)
      0 meta hop
    constructor
    · show (cmd.draws ++ (clearImageMipLoop env cmd.gen img format range _ 0 _ meta).1).length = _
      rw [List.length_append, hm.1, e1, e2]
    · rfl

/-- Witness for C8: on a 4-mip, 8-layer image, a range based at mip 4 is a
no-op, and a range at mip 1 asking for 10 mips and 5 layers from slice 6 is
clamped to 3 mips and 2 layers, issuing exactly 6 draws and no error. -/
theorem clear_image_range_clamp_witness :
    cmd_meta_clear_image envTrivial cmdGen7 imgMipped VK_FORMAT_R32_UINT metaZero
      rangeOOB = (cmdGen7, metaZero) ∧
    (cmd_meta_clear_image envTrivial cmdGen7 imgMipped VK_FORMAT_R32_UINT metaZero
      rangeClamped).1.draws.length = 6 ∧
    (cmd_meta_clear_image envTrivial cmdGen7 imgMipped VK_FORMAT_R32_UINT metaZero
      rangeClamped).1.result = none := by
  have h1 := (clear_image_range_clamp envTrivial cmdGen7 imgMipped VK_FORMAT_R32_UINT
    metaZero rangeOOB).1 (by decide)
  have h2 := (clear_image_range_clamp envTrivial cmdGen7 imgMipped VK_FORMAT_R32_UINT
    metaZero rangeClamped).2 (by decide) (by decide) rfl
  exact ⟨h1, h2.1.trans (by decide), h2.2⟩
